import Mathlib

/-!
Verification of the code-interpreter demo (`src/app.py`).

The script is embedded shallowly:

* Python strings are `List Char` (`Str`), so that substring search, slicing
  and concatenation are ordinary list operations.
* `re.search(r"```python\n(.*?)```", s, re.DOTALL)` is embedded by hand for
  this one fixed pattern: the regex matches at position `i` iff the literal
  text "```python\n" starts at `i` and a literal "```" occurs at some
  position `j ≥ i + 10`; `re.search` takes the leftmost such `i` and the
  non-greedy `(.*?)` takes the smallest such `j` (DOTALL lets the group span
  newlines).  If the first occurrence of "```python\n" has no "```" after
  it, no later occurrence has one either, so the embedding searches for the
  first opening fence and then for the first closing fence after it.
* The external collaborators (the subprocess facility and the container
  runtime) are parameterised by outcome values: what `subprocess.run`
  did (completed with an exit code, raised `TimeoutExpired`, or raised some
  other exception), whether `docker.from_env()` connected, and what
  `client.containers.run` did.  Python exception propagation is embedded as
  `Except`: `Except.error e` is an exception escaping the function.
* The filesystem is abstracted to the number of generated temp-script files
  on disk (`files : Nat`); `tempfile.NamedTemporaryFile(delete=False)`
  increments it and `os.unlink` decrements it.  `try/finally` is embedded by
  performing the `finally` effect on every branch, including the ones that
  re-raise.
-/

/-- Python strings, as lists of characters. -/
abbrev Str := List Char

/-- Whether `pat` is a prefix of `s` (character-by-character comparison). -/
def headMatch : Str → Str → Bool
  | [], _ => true
  | _ :: _, [] => false
  | a :: as, b :: bs => a == b && headMatch as bs

/-- Index of the first occurrence of `pat` as a contiguous substring of `s`
(the smallest `i` with `headMatch pat (s.drop i)`), or `none`. -/
def findSub (pat : Str) : Str → Option Nat
  | [] => if headMatch pat [] then some 0 else none
  | c :: t => if headMatch pat (c :: t) then some 0 else (findSub pat t).map (· + 1)

/-- Python's `pat in s` substring test. -/
def containsSub (pat s : Str) : Bool := (findSub pat s).isSome

/-- The literal matched by the opening part `"```python\n"` of the pattern in
`get_code_group` (`src/app.py` line 78). -/
def pyFenceOpen : Str := "```python\n".toList

/-- The closing literal `"```"` of the pattern in `get_code_group`. -/
def fenceClose : Str := "```".toList

/-- Embedding of `get_code_group` (`src/app.py` lines 67-84):
`re.search(r"```python\n(.*?)```", llm_response, re.DOTALL)` followed by
`return False` on no match and `return code_match.group(1)` otherwise.
`none` stands for the Python return value `False`; `some code` for the
captured group.  See the file header for why leftmost-match plus non-greedy
group reduces to two first-occurrence searches. -/
def get_code_group (llm_response : Str) : Option Str :=
  match findSub pyFenceOpen llm_response with
  | none => none
  | some i =>
    match findSub fenceClose (llm_response.drop (i + pyFenceOpen.length)) with
    | none => none
    | some j => some ((llm_response.drop (i + pyFenceOpen.length)).take j)

/-- Truthiness of the Python value `get_code_group` returns (`str | bool`):
`False` is falsy and a string is truthy iff non-empty. -/
def pyCodeTruthy : Option Str → Bool
  | none => false
  | some c => !c.isEmpty

/-- Truthiness of a Python string: non-empty. -/
def pyStrTruthy (s : Str) : Bool := !s.isEmpty

/-- Whitespace characters stripped by Python's `str.strip()` (restricted to
ASCII whitespace; the Python method also strips some Unicode whitespace,
which does not matter for any claim here). -/
def isPySpace (c : Char) : Bool :=
  c == ' ' || c == '\t' || c == '\n' || c == '\r' || c == '\x0b' || c == '\x0c'

/-- Embedding of Python's `s.strip()`: drop whitespace from both ends. -/
def pyStrip (s : Str) : Str :=
  ((s.dropWhile isPySpace).reverse.dropWhile isPySpace).reverse

theorem headMatch_append_self (pat t : Str) : headMatch pat (pat ++ t) = true := by
  induction pat with
  | nil => rfl
  | cons a as ih => simp [headMatch, ih]

theorem headMatch_nil_of_ne_nil (pat : Str) (h : pat ≠ []) : headMatch pat [] = false := by
  cases pat with
  | nil => exact absurd rfl h
  | cons a as => rfl

theorem findSub_eq_some_iff (pat : Str) : ∀ (s : Str) (i : Nat),
    findSub pat s = some i ↔
      (headMatch pat (s.drop i) = true ∧ ∀ k, k < i → headMatch pat (s.drop k) = false) := by
  intro s
  induction s with
  | nil =>
    intro i
    cases hm : headMatch pat [] with
    | true =>
      have hfs : findSub pat [] = some 0 := by simp [findSub, hm]
      rw [hfs]
      constructor
      · intro h
        cases h
        exact ⟨by simpa using hm, by omega⟩
      · rintro ⟨-, hmin⟩
        cases i with
        | zero => rfl
        | succ n => exact absurd (by simpa using hmin 0 (Nat.succ_pos n)) (by simp [hm])
    | false =>
      have hfs : findSub pat [] = none := by simp [findSub, hm]
      rw [hfs]
      constructor
      · intro h; cases h
      · rintro ⟨h1, -⟩
        rw [List.drop_nil] at h1
        exact absurd h1 (by simp [hm])
  | cons c t ih =>
    intro i
    cases hm : headMatch pat (c :: t) with
    | true =>
      have hfs : findSub pat (c :: t) = some 0 := by simp [findSub, hm]
      rw [hfs]
      constructor
      · intro h
        cases h
        exact ⟨by simpa using hm, by omega⟩
      · rintro ⟨-, hmin⟩
        cases i with
        | zero => rfl
        | succ n => exact absurd (by simpa using hmin 0 (Nat.succ_pos n)) (by simp [hm])
    | false =>
      have hfs : findSub pat (c :: t) = (findSub pat t).map (· + 1) := by
        simp [findSub, hm]
      rw [hfs]
      cases i with
      | zero =>
        constructor
        · intro h
          rcases Option.map_eq_some'.mp h with ⟨j, -, hj⟩
          exact absurd hj (by omega)
        · rintro ⟨h1, -⟩
          rw [List.drop_zero] at h1
          exact absurd h1 (by simp [hm])
      | succ n =>
        constructor
        · intro h
          rcases Option.map_eq_some'.mp h with ⟨j, hj, hjn⟩
          have hjn' : j = n := by omega
          rw [hjn'] at hj
          rcases (ih n).mp hj with ⟨h1, h2⟩
          refine ⟨by simpa using h1, ?_⟩
          intro k hk
          cases k with
          | zero => simpa using hm
          | succ m => simpa using h2 m (by omega)
        · rintro ⟨h1, h2⟩
          have ht : findSub pat t = some n := by
            refine (ih n).mpr ⟨by simpa using h1, ?_⟩
            intro m hm'
            simpa using h2 (m + 1) (by omega)
          simp [ht]

theorem findSub_eq_none_iff (pat : Str) : ∀ s : Str,
    findSub pat s = none ↔ ∀ i, headMatch pat (s.drop i) = false := by
  intro s
  induction s with
  | nil =>
    cases hm : headMatch pat [] with
    | true =>
      have hfs : findSub pat [] = some 0 := by simp [findSub, hm]
      rw [hfs]
      constructor
      · intro h; cases h
      · intro h; exact absurd (by simpa using h 0) (by simp [hm])
    | false =>
      have hfs : findSub pat [] = none := by simp [findSub, hm]
      rw [hfs]
      simp [List.drop_nil, hm]
  | cons c t ih =>
    cases hm : headMatch pat (c :: t) with
    | true =>
      have hfs : findSub pat (c :: t) = some 0 := by simp [findSub, hm]
      rw [hfs]
      constructor
      · intro h; cases h
      · intro h; exact absurd (by simpa using h 0) (by simp [hm])
    | false =>
      have hfs : findSub pat (c :: t) = (findSub pat t).map (· + 1) := by
        simp [findSub, hm]
      rw [hfs, Option.map_eq_none']
      constructor
      · intro h i
        cases i with
        | zero => simpa using hm
        | succ n => simpa using (ih.mp h) n
      · intro h
        exact ih.mpr fun i => by simpa using h (i + 1)

/-- Outcome of the call `subprocess.run(["python3.10", temp_file_path],
capture_output=True, text=True, timeout=10)` in `execute_local`
(`src/app.py` lines 107-109): the child completed with some exit code and
captured streams, the library raised `subprocess.TimeoutExpired` because the
10-second wall-clock budget was exceeded, or it raised some other exception
(for example `FileNotFoundError` when the `python3.10` binary is missing). -/
inductive SubprocOutcome
  | completed (returncode : Int) (stdout stderr : Str)
  | timedOut
  | raised (msg : Str)
deriving DecidableEq

/-- The hard wall-clock timeout passed to `subprocess.run` in
`execute_local` (`src/app.py` line 108), in seconds. -/
def localTimeoutSeconds : Nat := 10

/-- The sentinel text returned by `execute_local` on timeout
(`src/app.py` line 113). -/
def timeoutSentinel : Str := ">>> Execution timed out.".toList

/-- Embedding of `execute_local` (`src/app.py` lines 87-115).  `files` is
the number of generated temp-script files on disk; the `finally:
os.unlink(temp_file_path)` runs on every path, so every branch returns
`files - 1`.  An uncaught exception escaping the function is `Except.error`;
only `subprocess.TimeoutExpired` is caught and turned into text. -/
def execute_local (outcome : SubprocOutcome) (files : Nat) : Except Str Str × Nat :=
  match outcome with
  | SubprocOutcome.completed rc out err =>
      (Except.ok (if rc = 0 then out else err), files - 1)
  | SubprocOutcome.timedOut => (Except.ok timeoutSentinel, files - 1)
  | SubprocOutcome.raised m => (Except.error m, files - 1)

/-- Outcome of `client = docker.from_env()` (`src/app.py` line 138): either
a client connected to the container runtime, or an exception (docker-py
raises, e.g. `DockerException("Error while fetching server API version…")`,
when the daemon is unreachable).  The call sits BEFORE the `try:` block. -/
inductive DockerEnv
  | connected
  | connectError (msg : Str)
deriving DecidableEq

/-- Outcome of `client.containers.run(...)` (`src/app.py` lines 140-145):
either the container's output bytes (decoded to text by the caller), or any
exception (image lookup, mount, execution, API errors…). -/
inductive DockerRun
  | output (bytes : Str)
  | raised (msg : Str)
deriving DecidableEq

/-- Embedding of `execute_docker` (`src/app.py` lines 118-150).
`docker.from_env()` is evaluated before the `try:` block, so an exception
there escapes the function (`Except.error`) and skips the `finally:
os.unlink` (the file count is unchanged).  Inside the `try`, every
exception from `containers.run` is caught by `except Exception as e` and
turned into the text `"Failed running the container: " + str(e)`, and the
`finally` deletes the temp file on both paths. -/
def execute_docker (env : DockerEnv) (runOutcome : DockerRun) (files : Nat) :
    Except Str Str × Nat :=
  match env with
  | DockerEnv.connectError m => (Except.error m, files)
  | DockerEnv.connected =>
    match runOutcome with
    | DockerRun.output b => (Except.ok b, files - 1)
    | DockerRun.raised m =>
        (Except.ok ("Failed running the container: ".toList ++ m), files - 1)

/-- The three values of the `execution_env` selectbox (`src/app.py`
lines 24-28): `"None"`, `"docker"`, `"local"`. -/
inductive Mode
  | noExec
  | docker
  | local
deriving DecidableEq

/-- What the tail of the run block renders (`src/app.py` lines 176-182):
`st.image(path)` or `st.write(executed_result)` (where `executed_result`
may still be Python `None`, embedded as `none`). -/
inductive Displayed
  | image (path : Str)
  | text (result : Option Str)
deriving DecidableEq

/-- Embedding of the output-classification tail of the run block
(`src/app.py` lines 176-182).  `executed_result` is truthy iff it is a
non-empty string; the image test is Python's
`any(ext in executed_result for ext in (".png", ".jpg"))` (substring
check).  For the `"local"` environment the trimmed result itself is the
image path; for every other environment it is joined to
`os.path.dirname(temp_file_path)` (the host temp directory `tempDir`). -/
def classify (mode : Mode) (executed_result : Option Str) (tempDir : Str) : Displayed :=
  match executed_result with
  | none => Displayed.text none
  | some r =>
    if !r.isEmpty && (containsSub ".png".toList r || containsSub ".jpg".toList r) then
      match mode with
      | Mode.local => Displayed.image (pyStrip r)
      | _ => Displayed.image (tempDir ++ '/' :: pyStrip r)
    else Displayed.text (some r)

/-- How one click of the Run button ends: the tail display call was reached
(`displayed`), the `if output and code:` guard failed so extraction,
materialisation and execution were all skipped (`skipped`), or an uncaught
exception escaped the executing strategy (`crashed`). -/
inductive RunEnd
  | displayed (d : Displayed)
  | skipped
  | crashed (e : Str)
deriving DecidableEq

/-- Observable result of one run: how it ended, how many generated
temp-script files remain on disk, and the largest number that ever existed
at once during the run. -/
structure RunResult where
  outcome : RunEnd
  finalFiles : Nat
  maxFiles : Nat
deriving DecidableEq

/-- Embedding of the `if run:` block (`src/app.py` lines 153-182), starting
from the streamed model reply `output`.  `get_code_group` is applied to
`output`; if both are truthy, `tempfile.NamedTemporaryFile(delete=False)`
materialises the code (file count 0 → 1) and the selected strategy runs
(`executed_result` stays `None` for the `"None"` environment).  The script
content written to the file is not tracked: no claim depends on it.  The
strategies' outcome parameters and the temp directory `tempDir`
(`os.path.dirname(temp_file_path)`) are passed in. -/
def runBlock (mode : Mode) (output : Str) (lo : SubprocOutcome) (de : DockerEnv)
    (dr : DockerRun) (tempDir : Str) : RunResult :=
  if pyStrTruthy output && pyCodeTruthy (get_code_group output) then
    match mode with
    | Mode.local =>
      match execute_local lo 1 with
      | (Except.ok r, f) => ⟨RunEnd.displayed (classify Mode.local (some r) tempDir), f, 1⟩
      | (Except.error e, f) => ⟨RunEnd.crashed e, f, 1⟩
    | Mode.docker =>
      match execute_docker de dr 1 with
      | (Except.ok r, f) => ⟨RunEnd.displayed (classify Mode.docker (some r) tempDir), f, 1⟩
      | (Except.error e, f) => ⟨RunEnd.crashed e, f, 1⟩
    | Mode.noExec => ⟨RunEnd.displayed (classify Mode.noExec none tempDir), 1, 1⟩
  else ⟨RunEnd.skipped, 0, 0⟩

/-- Core characterisation of `get_code_group` on a reply that decomposes as
`pre ++ "```python\n" ++ body ++ "```" ++ post`: when no opening fence
occurs before `pre.length` (so this is the first block) and no closing
fence occurs before `body.length` in the tail (so `body` is the non-greedy
group), the extractor returns exactly `body`.  Shared by several claim
theorems. -/
theorem get_code_group_spec_aux (pre body post : Str)
    (h1 : ∀ k, k < pre.length →
      headMatch pyFenceOpen ((pre ++ pyFenceOpen ++ body ++ fenceClose ++ post).drop k) = false)
    (h2 : ∀ k, k < body.length →
      headMatch fenceClose ((body ++ fenceClose ++ post).drop k) = false) :
    get_code_group (pre ++ pyFenceOpen ++ body ++ fenceClose ++ post) = some body := by
  have hopen : findSub pyFenceOpen (pre ++ pyFenceOpen ++ body ++ fenceClose ++ post) =
      some pre.length := by
    refine (findSub_eq_some_iff _ _ _).mpr ⟨?_, h1⟩
    rw [show pre ++ pyFenceOpen ++ body ++ fenceClose ++ post =
          pre ++ (pyFenceOpen ++ (body ++ fenceClose ++ post)) by simp,
        List.drop_left]
    exact headMatch_append_self _ _
  have hdrop : (pre ++ pyFenceOpen ++ body ++ fenceClose ++ post).drop
      (pre.length + pyFenceOpen.length) = body ++ fenceClose ++ post := by
    rw [show pre ++ pyFenceOpen ++ body ++ fenceClose ++ post =
          (pre ++ pyFenceOpen) ++ (body ++ fenceClose ++ post) by simp,
        ← List.length_append, List.drop_left]
  have hclose : findSub fenceClose (body ++ fenceClose ++ post) = some body.length := by
    refine (findSub_eq_some_iff _ _ _).mpr ⟨?_, h2⟩
    rw [show body ++ fenceClose ++ post = body ++ (fenceClose ++ post) by simp,
        List.drop_left]
    exact headMatch_append_self _ _
  have htake : (body ++ fenceClose ++ post).take body.length = body := by
    rw [show body ++ fenceClose ++ post = body ++ (fenceClose ++ post) by simp,
        List.take_left]
  simp only [get_code_group, hopen, hdrop, hclose, htake]

/-- Helper: when the extracted code is falsy in Python (the `False`
not-found signal or the empty string), the guard `if output and code:`
fails and the whole materialise-execute-display block is skipped. -/
theorem runBlock_skip_of_code_falsy (mode : Mode) (output : Str) (lo : SubprocOutcome)
    (de : DockerEnv) (dr : DockerRun) (tempDir : Str)
    (h : pyCodeTruthy (get_code_group output) = false) :
    runBlock mode output lo de dr tempDir = ⟨RunEnd.skipped, 0, 0⟩ := by
  unfold runBlock
  rw [h, Bool.and_false]
  rfl

/-- C3: for every reply text containing at least one fenced python code
block, `get_code_group` returns exactly the body of the first such block,
with the opening fence, language tag and closing fence stripped; the
non-greedy match stops at the first closing fence and any blocks inside
`post` are ignored.  The hypotheses state that the exhibited block is the
first one (`h1`) and that `body` is the non-greedy group (`h2`). -/
theorem get_code_group_extracts_first_block (pre body post : Str)
    (h1 : ∀ k, k < pre.length →
      headMatch pyFenceOpen ((pre ++ pyFenceOpen ++ body ++ fenceClose ++ post).drop k) = false)
    (h2 : ∀ k, k < body.length →
      headMatch fenceClose ((body ++ fenceClose ++ post).drop k) = false) :
    get_code_group (pre ++ pyFenceOpen ++ body ++ fenceClose ++ post) = some body :=
  get_code_group_spec_aux pre body post h1 h2

/-- Witness for C3: a reply with two fenced python blocks; the extractor
returns the first body `"x = 1\n"` and ignores the second block. -/
theorem get_code_group_extracts_first_block_witness :
    get_code_group ("Intro\n".toList ++ pyFenceOpen ++ "x = 1\n".toList ++ fenceClose ++
        "\nAnd also:\n```python\ny = 2\n```\n".toList) = some "x = 1\n".toList :=
  get_code_group_extracts_first_block "Intro\n".toList "x = 1\n".toList
    "\nAnd also:\n```python\ny = 2\n```\n".toList (by decide) (by decide)

/-- C7: for a reply text containing no fenced python code block (no
position where an opening fence is followed by a closing fence),
`get_code_group` returns the not-found signal `none` (Python `False`,
distinct from an empty match `some []`), and the run block never creates a
temp file and skips execution entirely, in every mode. -/
theorem no_block_skips_run (output : Str)
    (h : ∀ i j : Nat, ¬(headMatch pyFenceOpen (output.drop i) = true ∧
        headMatch fenceClose (output.drop (i + pyFenceOpen.length + j)) = true)) :
    get_code_group output = none ∧
    ∀ mode lo de dr tempDir,
      runBlock mode output lo de dr tempDir = ⟨RunEnd.skipped, 0, 0⟩ := by
  have hnone : get_code_group output = none := by
    cases ho : findSub pyFenceOpen output with
    | none => simp [get_code_group, ho]
    | some i =>
      have hi := ((findSub_eq_some_iff _ _ _).mp ho).1
      cases hc : findSub fenceClose (output.drop (i + pyFenceOpen.length)) with
      | none => simp [get_code_group, ho, hc]
      | some j =>
        have hj := ((findSub_eq_some_iff _ _ _).mp hc).1
        rw [List.drop_drop] at hj
        exact absurd ⟨hi, hj⟩ (h i j)
  refine ⟨hnone, ?_⟩
  intro mode lo de dr tempDir
  exact runBlock_skip_of_code_falsy mode output lo de dr tempDir (by rw [hnone]; rfl)

/-- Witness for C7: a reply with no code fence at all is not extracted, and
the run block (here in local mode) creates no file and skips execution. -/
theorem no_block_skips_run_witness :
    get_code_group "There is no code here.".toList = none ∧
    runBlock Mode.local "There is no code here.".toList SubprocOutcome.timedOut
        DockerEnv.connected (DockerRun.output []) "/tmp".toList =
      ⟨RunEnd.skipped, 0, 0⟩ := by
  have hn : findSub pyFenceOpen "There is no code here.".toList = none := by decide
  have H := no_block_skips_run "There is no code here.".toList (by
    intro i j hij
    have hfix := (findSub_eq_none_iff pyFenceOpen "There is no code here.".toList).mp hn i
    rw [hfix] at hij
    exact absurd hij.1 (by decide))
  exact ⟨H.1, H.2 Mode.local SubprocOutcome.timedOut DockerEnv.connected
    (DockerRun.output []) "/tmp".toList⟩

/-- C8: a reply whose first fenced python block has an empty body (the
closing fence immediately follows the opening tag's newline) makes
`get_code_group` return the empty string `some []` — not the not-found
signal `none` — and the caller's truthiness test `if output and code:`
treats the empty string like absence: no temp file is written and no
execution occurs, in every mode. -/
theorem empty_block_treated_as_absence (pre post : Str)
    (h1 : ∀ k, k < pre.length →
      headMatch pyFenceOpen ((pre ++ pyFenceOpen ++ fenceClose ++ post).drop k) = false) :
    get_code_group (pre ++ pyFenceOpen ++ fenceClose ++ post) = some [] ∧
    get_code_group (pre ++ pyFenceOpen ++ fenceClose ++ post) ≠ none ∧
    ∀ mode lo de dr tempDir,
      runBlock mode (pre ++ pyFenceOpen ++ fenceClose ++ post) lo de dr tempDir =
        ⟨RunEnd.skipped, 0, 0⟩ := by
  have hg : get_code_group (pre ++ pyFenceOpen ++ fenceClose ++ post) = some [] := by
    have h := get_code_group_spec_aux pre [] post
      (by simpa using h1) (by intro k hk; simp at hk)
    simpa using h
  refine ⟨hg, ?_, ?_⟩
  · rw [hg]
    exact Option.some_ne_none []
  · intro mode lo de dr tempDir
    exact runBlock_skip_of_code_falsy mode _ lo de dr tempDir (by rw [hg]; rfl)

/-- Witness for C8: the reply `"Sure:\n```python\n``` done"` yields the
empty extracted string, and the run block (here in docker mode) creates no
file and skips execution. -/
theorem empty_block_treated_as_absence_witness :
    get_code_group ("Sure:\n".toList ++ pyFenceOpen ++ fenceClose ++ " done".toList) =
      some [] ∧
    runBlock Mode.docker ("Sure:\n".toList ++ pyFenceOpen ++ fenceClose ++ " done".toList)
        SubprocOutcome.timedOut DockerEnv.connected (DockerRun.output []) "/tmp".toList =
      ⟨RunEnd.skipped, 0, 0⟩ := by
  have H := empty_block_treated_as_absence "Sure:\n".toList " done".toList (by decide)
  exact ⟨H.1, H.2.2 Mode.docker SubprocOutcome.timedOut DockerEnv.connected
    (DockerRun.output []) "/tmp".toList⟩

/-- C10: the pattern `"```python\n(.*?)```"` requires a newline immediately
after the language tag, so a reply that contains an opening fence
`"```python"` but in which the ten-character sequence `"```python\n"` never
occurs (fence and code on one line) makes `get_code_group` return the
not-found signal `none` (Python `False`). -/
theorem one_line_fence_not_found (output : Str)
    (_hfence : containsSub "```python".toList output = true)
    (h : ∀ i, headMatch pyFenceOpen (output.drop i) = false) :
    get_code_group output = none := by
  have hnone : findSub pyFenceOpen output = none := (findSub_eq_none_iff _ _).mpr h
  simp [get_code_group, hnone]

/-- Witness for C10: the one-line reply `"```python print(1)```"` contains
an opening fence but no newline after the tag, and is not extracted. -/
theorem one_line_fence_not_found_witness :
    get_code_group "```python print(1)```".toList = none :=
  one_line_fence_not_found "```python print(1)```".toList (by decide)
    ((findSub_eq_none_iff _ _).mp (by decide))

/-- C4: when the local-strategy subprocess completes, a zero exit code
makes `execute_local` return the captured stdout text and a non-zero exit
code makes it return the captured stderr text (not stdout); the temp file
is unlinked either way. -/
theorem execute_local_exit_code_selects_stream (rc : Int) (out err : Str) (files : Nat) :
    (rc = 0 → execute_local (SubprocOutcome.completed rc out err) files =
      (Except.ok out, files - 1)) ∧
    (rc ≠ 0 → execute_local (SubprocOutcome.completed rc out err) files =
      (Except.ok err, files - 1)) := by
  constructor <;> intro h <;> simp [execute_local, h]

/-- Witness for C4: exit code 0 yields stdout, exit code 1 yields stderr. -/
theorem execute_local_exit_code_selects_stream_witness :
    execute_local (SubprocOutcome.completed 0 "ok\n".toList "boom\n".toList) 1 =
      (Except.ok "ok\n".toList, 0) ∧
    execute_local (SubprocOutcome.completed 1 "ok\n".toList "boom\n".toList) 1 =
      (Except.ok "boom\n".toList, 0) :=
  ⟨(execute_local_exit_code_selects_stream 0 "ok\n".toList "boom\n".toList 1).1 rfl,
   (execute_local_exit_code_selects_stream 1 "ok\n".toList "boom\n".toList 1).2 (by decide)⟩

/-- C5: when the subprocess exceeds the fixed 10-second timeout
(`subprocess.TimeoutExpired` is raised), `execute_local` returns the fixed
sentinel text `">>> Execution timed out."` instead of letting the
exception escape, and the `finally` clause still unlinks the temp file. -/
theorem execute_local_timeout_returns_sentinel (files : Nat) :
    execute_local SubprocOutcome.timedOut files = (Except.ok timeoutSentinel, files - 1) ∧
    timeoutSentinel = ">>> Execution timed out.".toList ∧
    localTimeoutSeconds = 10 :=
  ⟨rfl, rfl, rfl⟩

/-- C9: when the subprocess call raises any exception other than
`TimeoutExpired` (e.g. the `python3.10` binary is missing), the `finally`
clause of `execute_local` unlinks the temp file (`files - 1`) and the
exception then propagates to the caller (`Except.error`); it is never
converted to an ordinary text result. -/
theorem execute_local_other_exception_unlinks_then_raises (m : Str) (files : Nat) :
    execute_local (SubprocOutcome.raised m) files = (Except.error m, files - 1) ∧
    ∀ r : Str, execute_local (SubprocOutcome.raised m) files ≠ (Except.ok r, files - 1) := by
  refine ⟨rfl, ?_⟩
  intro r
  simp [execute_local]

/-- C2 counterexample: a connection error raised by `docker.from_env()`
(line 138, before the `try:` block) escapes `execute_docker` as an
exception (`Except.error`) instead of being converted to the
`"Failed running the container: …"` text, and the temp file is not
deleted (the file count stays 1).  This refutes the claim that every
error of the containerized strategy, including connection errors, is
caught. -/
theorem execute_docker_connect_error_escapes :
    execute_docker
        (DockerEnv.connectError "Error while fetching server API version".toList)
        (DockerRun.output []) 1 =
      (Except.error "Error while fetching server API version".toList, 1) := rfl

/-- C2 amended: once `docker.from_env()` has succeeded, every error raised
by `client.containers.run` — image lookup, mount, execution, any
exception at all — is caught by the `except Exception` handler and
returned as the text `"Failed running the container: <message>"`; no
exception escapes from inside the `try` block, and the temp file is
unlinked on both paths. -/
theorem execute_docker_run_errors_caught (dr : DockerRun) (files : Nat) :
    execute_docker DockerEnv.connected dr files =
      (Except.ok (match dr with
        | DockerRun.output b => b
        | DockerRun.raised m => "Failed running the container: ".toList ++ m),
       files - 1) := by
  cases dr <;> rfl

/-- C6: for a truthy (non-empty) execution result containing `".png"` or
`".jpg"` as a substring, the output classifier renders an image: under the
local strategy the path is the trimmed result text itself, under the
containerized strategy it is the host temp directory, a `'/'`, and the
trimmed result text; a result containing neither suffix is rendered as
plain text. -/
theorem classify_image_path_resolution (mode : Mode) (r tempDir : Str) :
    (r ≠ [] → (containsSub ".png".toList r || containsSub ".jpg".toList r) = true →
      classify Mode.local (some r) tempDir = Displayed.image (pyStrip r) ∧
      classify Mode.docker (some r) tempDir =
        Displayed.image (tempDir ++ '/' :: pyStrip r)) ∧
    ((containsSub ".png".toList r || containsSub ".jpg".toList r) = false →
      classify mode (some r) tempDir = Displayed.text (some r)) := by
  constructor
  · intro hne hext
    have hr : r.isEmpty = false := by
      cases r with
      | nil => exact absurd rfl hne
      | cons a t => rfl
    constructor
    · show (if (!r.isEmpty && (containsSub ".png".toList r || containsSub ".jpg".toList r)) = true
          then Displayed.image (pyStrip r) else Displayed.text (some r)) =
        Displayed.image (pyStrip r)
      rw [hr, hext]
      rfl
    · show (if (!r.isEmpty && (containsSub ".png".toList r || containsSub ".jpg".toList r)) = true
          then Displayed.image (tempDir ++ '/' :: pyStrip r) else Displayed.text (some r)) =
        Displayed.image (tempDir ++ '/' :: pyStrip r)
      rw [hr, hext]
      rfl
  · intro hext
    show (if (!r.isEmpty && (containsSub ".png".toList r || containsSub ".jpg".toList r)) = true
        then (match mode with
          | Mode.local => Displayed.image (pyStrip r)
          | _ => Displayed.image (tempDir ++ '/' :: pyStrip r))
        else Displayed.text (some r)) = Displayed.text (some r)
    rw [hext, Bool.and_false]
    rfl

/-- Witness for C6: the spec's two examples — result `"chart.png"` under
the containerized strategy with temp directory `"/tmp/abc"` resolves to
the image `"/tmp/abc/chart.png"`, and result `"/tmp/xyz/chart.png"` under
the local strategy is rendered from that literal path. -/
theorem classify_image_path_resolution_witness :
    classify Mode.docker (some "chart.png".toList) "/tmp/abc".toList =
      Displayed.image "/tmp/abc/chart.png".toList ∧
    classify Mode.local (some "/tmp/xyz/chart.png".toList) "/tmp/abc".toList =
      Displayed.image "/tmp/xyz/chart.png".toList := by
  constructor
  · have h := ((classify_image_path_resolution Mode.docker "chart.png".toList
      "/tmp/abc".toList).1 (by decide) (by decide)).2
    rw [h]
    decide
  · have h := ((classify_image_path_resolution Mode.local "/tmp/xyz/chart.png".toList
      "/tmp/abc".toList).1 (by decide) (by decide)).1
    rw [h]
    decide

/-- C1 counterexample: in the no-execution mode (`"None"`), a reply with a
valid code block still materialises a temp file, and because neither
`execute_local` nor `execute_docker` runs, nothing ever deletes it: the
run ends with the generated-script file still on disk, refuting the claim
that the temp file is deleted before the run ends in every execution mode. -/
theorem runBlock_noexec_leaks_tempfile :
    (runBlock Mode.noExec "```python\nprint(1)\n```".toList SubprocOutcome.timedOut
        DockerEnv.connected (DockerRun.output []) "/tmp".toList).finalFiles = 1 ∧
    (runBlock Mode.noExec "```python\nprint(1)\n```".toList SubprocOutcome.timedOut
        DockerEnv.connected (DockerRun.output []) "/tmp".toList).maxFiles = 1 := by
  constructor <;> rfl

/-- C1 amended: at most one generated-script temp file ever exists during
a run.  The file created for a run is deleted before the run ends in the
local mode on every exit path (success, failure, timeout, or any other
exception) and in the docker mode whenever `docker.from_env()` succeeds
(including when `containers.run` fails); it survives the run in the
no-execution mode, and in the docker mode when `docker.from_env()`
raises. -/
theorem runBlock_tempfile_lifecycle (mode : Mode) (output : Str) (lo : SubprocOutcome)
    (de : DockerEnv) (dr : DockerRun) (tempDir : Str) :
    (runBlock mode output lo de dr tempDir).maxFiles ≤ 1 ∧
    (mode = Mode.local → (runBlock mode output lo de dr tempDir).finalFiles = 0) ∧
    (mode = Mode.docker → de = DockerEnv.connected →
      (runBlock mode output lo de dr tempDir).finalFiles = 0) ∧
    ((pyStrTruthy output && pyCodeTruthy (get_code_group output)) = true →
      (mode = Mode.noExec → (runBlock mode output lo de dr tempDir).finalFiles = 1) ∧
      (∀ m, mode = Mode.docker → de = DockerEnv.connectError m →
        (runBlock mode output lo de dr tempDir).finalFiles = 1)) := by
  by_cases hc : (pyStrTruthy output && pyCodeTruthy (get_code_group output)) = true
  · cases mode <;> cases lo <;> cases de <;> cases dr <;>
      simp [runBlock, hc, execute_local, execute_docker]
  · have hc' : (pyStrTruthy output && pyCodeTruthy (get_code_group output)) = false := by
      simpa using hc
    simp [runBlock, hc']

/-- Witness for C1 (amended): in local mode with a valid code block and a
timed-out execution, the run ends with zero temp files on disk. -/
theorem runBlock_tempfile_lifecycle_witness :
    (runBlock Mode.local "```python\nprint(1)\n```".toList SubprocOutcome.timedOut
        DockerEnv.connected (DockerRun.output []) "/tmp".toList).finalFiles = 0 :=
  (runBlock_tempfile_lifecycle Mode.local "```python\nprint(1)\n```".toList
    SubprocOutcome.timedOut DockerEnv.connected (DockerRun.output [])
    "/tmp".toList).2.1 rfl
